import Mathlib

/-!
Verification development for the parcel_model repository: an adiabatic
cloud-parcel model that integrates the coupled evolution of parcel
thermodynamic state (pressure, temperature, supersaturation) and per-bin
aerosol wet radii, with an activation diagnostic and two closed-form
activation parameterizations.  The repository's numerical core is not
shipped with the sources available here (only the build scripts, the
dependency list and an example notebook are), so every definition below is
modelled from the specification, as its doc comment records.
-/

/-! ## Physical constants (rational stand-ins for the constant tables) -/

/-- Modelled from the spec: gravitational acceleration, from the immutable
physical-constant table. -/
def gAccel : ℚ := 10

/-- Modelled from the spec: specific heat of air at constant pressure, from
the constant table (a representative rational value). -/
def cpAir : ℚ := 100

/-- Modelled from the spec: latent heat of vaporization, from the constant
table. -/
def lvVap : ℚ := 2500000

/-- Modelled from the spec: dry-air gas constant, from the constant table. -/
def rdAir : ℚ := 287

/-- Modelled from the spec: water-vapor gas constant, from the constant
table. -/
def rvGas : ℚ := 461

/-- Modelled from the spec: density of liquid water, from the constant
table. -/
def rhoWater : ℚ := 1000

/-- Modelled from the spec: ratio of the molar mass of water to that of dry
air, used to convert vapor pressure to a vapor mass measure. -/
def epsR : ℚ := 311/500

/-- Modelled from the spec: a rational approximation of pi used in the
condensed-water mass of a population of spherical droplets. -/
def piRat : ℚ := 157/50

/-- Modelled from the spec: numerator constant of the Kelvin (curvature)
coefficient of Koehler theory, proportional to surface tension. -/
def aCoeffC : ℚ := 33/100000000

/-! ## Thermodynamic state functions (spec section 4.2) -/

/-- Modelled from the spec: saturation vapor pressure as a
Clausius-Clapeyron-based rational approximation, increasing and positive on
the operating temperature range. -/
def esat (T : ℚ) : ℚ := T ^ 2 / 50

/-- Modelled from the spec: saturation vapor mass measure implied by
temperature and pressure. -/
def wvSat (T P : ℚ) : ℚ := epsR * esat T / (P - esat T)

/-- Modelled from the spec: the vapor mass implied by supersaturation,
temperature and pressure (S is relative humidity minus one). -/
def vaporMass (S T P : ℚ) : ℚ := (S + 1) * wvSat T P

/-- Modelled from the spec: moist-air density from the ideal gas law. -/
def rhoAir (T P : ℚ) : ℚ := P / (rdAir * T)

/-- Modelled from the spec: water-vapor diffusivity with a
Fuchs-Sutugin-style non-continuum correction parameterized by the
accommodation coefficient. -/
def diffCoeff (T P ac : ℚ) : ℚ := (3/500) * T / (P * (1 + (1/10) / ac))

/-- Modelled from the spec: thermal conductivity of air with a
non-continuum correction parameterized by the accommodation coefficient. -/
def thermalCond (T ac : ℚ) : ℚ := (13/500) * (ac / (ac + 1/10)) * (T / 286)

/-- Modelled from the spec: Kelvin (curvature) coefficient of Koehler
theory as a function of temperature. -/
def kelvinA (T : ℚ) : ℚ := aCoeffC / T

/-! ## Aerosol population model (spec sections 3 and 4.1) -/

/-- Modelled from the spec: one lognormal distribution mode (mode radius,
geometric standard deviation, total number concentration). -/
structure Lognorm where
  mu : ℚ
  sigma : ℚ
  N : ℚ
deriving DecidableEq, Repr

/-- Modelled from the spec: one discretized aerosol size bin: dry radius,
number concentration and hygroscopicity parameter kappa. -/
structure AerosolBin where
  r_dry : ℚ
  N : ℚ
  kappa : ℚ
deriving DecidableEq, Repr

/-- Modelled from the spec: an aerosol species: a name and an ordered
sequence of size bins derived from its distribution. -/
structure AerosolSpecies where
  name : String
  bins : List AerosolBin
deriving DecidableEq, Repr

/-- Modelled from the spec: a parcel state: pressure, temperature,
supersaturation and one wet radius per aerosol bin. -/
structure ParcelState where
  P : ℚ
  T : ℚ
  S : ℚ
  radii : List ℚ
deriving DecidableEq, Repr

/-- Modelled from the spec: the error taxonomy.  A configuration error is
raised at setup time, a domain error by a thermodynamic function outside
its range, and an integration error carries the last good parcel state and
the truncated trajectory accumulated up to the failure point. -/
inductive ModelError where
  | configurationError (msg : String)
  | domainError (T : ℚ)
  | integrationError (lastGood : ParcelState) (truncated : List (ℚ × ParcelState))
deriving DecidableEq, Repr

/-- Modelled from the spec: the dry radius of bin j of nbins log-spaced
bins spanning the support of a lognormal mode. -/
def binRadius (dist : Lognorm) (nbins j : ℕ) : ℚ :=
  dist.mu * dist.sigma ^ (j + 1) / dist.sigma ^ (nbins / 2)

/-- Modelled from the spec: the AerosolSpecies constructor.  It discretizes
a lognormal mode into a fixed number of bins and fails with a
configuration error if the bin count is below 2, kappa is not positive, or
a distribution parameter is not positive. -/
def mkAerosolSpecies (name : String) (dist : Lognorm) (kappa : ℚ) (nbins : ℕ) :
    Except ModelError AerosolSpecies :=
  if nbins < 2 then
    .error (.configurationError "bin count < 2")
  else if kappa ≤ 0 then
    .error (.configurationError "kappa <= 0")
  else if dist.mu ≤ 0 ∨ dist.sigma ≤ 0 ∨ dist.N ≤ 0 then
    .error (.configurationError "distribution parameter <= 0")
  else
    .ok { name := name
          bins := (List.range nbins).map fun j =>
            { r_dry := binRadius dist nbins j, N := dist.N / nbins, kappa := kappa } }

/-! ## Droplet growth law (spec section 4.3) -/

/-- Modelled from the spec: equilibrium (Koehler) supersaturation over a
solution droplet of wet radius r with dry radius rd and hygroscopicity
kappa, in the singularity-free kappa-Koehler form (Kelvin term minus
solute term). -/
def seqKohler (T kap rd r : ℚ) : ℚ := kelvinA T / r - kap * rd ^ 3 / r ^ 3

/-- Modelled from the spec: the kinetic growth resistance combining vapor
diffusion and heat conduction, both corrected for accommodation. -/
def growthG (T P ac : ℚ) : ℚ :=
  rhoWater * rvGas * T / (diffCoeff T P ac * esat T) +
    lvVap * rhoWater * (lvVap / (rvGas * T) - 1) / (thermalCond T ac * T)

/-- Modelled from the spec: the unclamped droplet growth rate, the ambient
minus equilibrium supersaturation divided by the kinetic resistance times
the wet radius. -/
def drdtRaw (T P S ac kap rd r : ℚ) : ℚ :=
  (S - seqKohler T kap rd r) / (growthG T P ac * r)

/-- Modelled from the spec: the droplet growth rate returned by the growth
law, saturated to exactly zero when the particle would evaporate at or
below its dry radius. -/
def drdt (T P S ac kap rd r : ℚ) : ℚ :=
  if r ≤ rd ∧ drdtRaw T P S ac kap rd r < 0 then 0 else drdtRaw T P S ac kap rd r

/-! ## Parcel ODE system and integrator driver (spec sections 4.4, 4.5) -/

/-- Modelled from the spec: the simulation configuration: updraft speed,
initial thermodynamic state, accommodation coefficient, output time step,
number of output steps to the end time, a step budget, and tolerances. -/
structure SimulationConfig where
  V : ℚ
  T0 : ℚ
  S0 : ℚ
  P0 : ℚ
  accom : ℚ
  dt : ℚ
  nSteps : ℕ
  maxSteps : ℕ
  rtol : ℚ
  atol : ℚ
deriving DecidableEq, Repr

/-- Modelled from the spec: validity of a simulation configuration (caught
at setup): positive output step, physically admissible initial state, and
non-negative tolerances. -/
def ValidConfig (cfg : SimulationConfig) : Prop :=
  0 < cfg.dt ∧ 0 < cfg.T0 ∧ esat cfg.T0 < cfg.P0 ∧ 0 ≤ cfg.rtol ∧
    0 < cfg.accom ∧ -1 ≤ cfg.S0

instance (cfg : SimulationConfig) : Decidable (ValidConfig cfg) := by
  unfold ValidConfig; infer_instance

/-- Modelled from the spec: validity of an aerosol population: at least two
bins, and positive dry radius, number concentration and kappa in every
bin. -/
def ValidAerosol (aer : AerosolSpecies) : Prop :=
  2 ≤ aer.bins.length ∧ ∀ b ∈ aer.bins, 0 < b.r_dry ∧ 0 < b.N ∧ 0 < b.kappa

/-- Modelled from the spec: condensed water mass summed over all bins,
treating each bin as N spherical droplets of its wet radius. -/
def wcMass (bins : List AerosolBin) (radii : List ℚ) : ℚ :=
  (4 * piRat * rhoWater / 3) *
    ((List.zipWith (fun b r => b.N * r ^ 3) bins radii).foldr (· + ·) 0)

/-- Modelled from the spec: total water mass at a parcel state: the vapor
mass implied by S, T, P plus the condensed mass across all bins. -/
def totalWater (bins : List AerosolBin) (s : ParcelState) : ℚ :=
  vaporMass s.S s.T s.P + wcMass bins s.radii

/-- Modelled from the spec: the initial parcel state; each bin starts at
its equilibrium wet size, modelled as a fixed inflation of the dry
radius. -/
def initState (cfg : SimulationConfig) (aer : AerosolSpecies) : ParcelState :=
  { P := cfg.P0, T := cfg.T0, S := cfg.S0,
    radii := aer.bins.map fun b => 2 * b.r_dry }

/-- Modelled from the spec: the wet radii after one step of the growth law,
each kept at or above its dry radius. -/
def stepRadii (cfg : SimulationConfig) (aer : AerosolSpecies) (s : ParcelState) :
    List ℚ :=
  List.zipWith
    (fun b r => max b.r_dry (r + cfg.dt * drdt s.T s.P s.S cfg.accom b.kappa b.r_dry r))
    aer.bins s.radii

/-- Modelled from the spec: the condensation uptake of one step, the
change of the condensed water mass across all bins. -/
def stepDwc (cfg : SimulationConfig) (aer : AerosolSpecies) (s : ParcelState) : ℚ :=
  wcMass aer.bins (stepRadii cfg aer s) - wcMass aer.bins s.radii

/-- Modelled from the spec: pressure after one step, falling
hydrostatically at the prescribed updraft speed. -/
def stepP (cfg : SimulationConfig) (s : ParcelState) : ℚ :=
  s.P - cfg.dt * gAccel * cfg.V * rhoAir s.T s.P

/-- Modelled from the spec: temperature after one step, adiabatic cooling
plus latent heat release from the condensation uptake. -/
def stepT (cfg : SimulationConfig) (aer : AerosolSpecies) (s : ParcelState) : ℚ :=
  s.T - cfg.dt * gAccel * cfg.V / cpAir + (lvVap / cpAir) * stepDwc cfg aer s

/-- Modelled from the spec: one accepted step of the parcel ODE system.
The supersaturation is recovered from the vapor mass left after the
condensation uptake, so that the condensation-driven vapor sink exactly
balances the parcel's vapor-mass loss. -/
def stepState (cfg : SimulationConfig) (aer : AerosolSpecies) (s : ParcelState) :
    ParcelState :=
  { P := stepP cfg s
    T := stepT cfg aer s
    S := (vaporMass s.S s.T s.P - stepDwc cfg aer s) /
            wvSat (stepT cfg aer s) (stepP cfg s) - 1
    radii := stepRadii cfg aer s }

/-- Modelled from the spec: the parcel state after k accepted steps. -/
def runSamples (cfg : SimulationConfig) (aer : AerosolSpecies) : ℕ → ParcelState
  | 0 => initState cfg aer
  | k + 1 => stepState cfg aer (runSamples cfg aer k)

/-- Modelled from the spec: the trajectory of (time, state) samples up to
step k, sampled at the fixed output cadence. -/
def trajList (cfg : SimulationConfig) (aer : AerosolSpecies) (k : ℕ) :
    List (ℚ × ParcelState) :=
  (List.range (k + 1)).map fun (j : ℕ) => ((j : ℚ) * cfg.dt, runSamples cfg aer j)

/-- Modelled from the spec: the external solver's acceptance test for a
trial state; a state outside the physically integrable region makes the
solver fail to converge. -/
def solverOk (s : ParcelState) : Bool :=
  decide (0 < s.T) && decide (esat s.T < s.P)

/-- Modelled from the spec: the integrator driver.  It advances the ODE
system step by step up to the configured end step, failing with an
integration error carrying the last good state and the truncated
trajectory either when the solver rejects a step or when the step budget
is exhausted before the end time. -/
def ParcelModel.run (cfg : SimulationConfig) (aer : AerosolSpecies) :
    Except ModelError (List (ℚ × ParcelState)) :=
  match (List.range' 1 (min cfg.nSteps cfg.maxSteps)).find?
      (fun j => !solverOk (runSamples cfg aer j)) with
  | some j => .error (.integrationError (runSamples cfg aer (j - 1)) (trajList cfg aer (j - 1)))
  | none =>
      if cfg.nSteps ≤ cfg.maxSteps then .ok (trajList cfg aer cfg.nSteps)
      else .error (.integrationError (runSamples cfg aer (min cfg.nSteps cfg.maxSteps))
        (trajList cfg aer (min cfg.nSteps cfg.maxSteps)))

/-! ## Activation diagnostic (spec section 4.6) -/

/-- Modelled from the spec: the peak supersaturation over a trajectory. -/
def smaxOfTraj (traj : List (ℚ × ParcelState)) : ℚ :=
  (traj.map (fun p => p.2.S)).foldr max (-1)

/-- Modelled from the spec: whether a bin is activated at peak
supersaturation Smax: true exactly when Smax exceeds the bin's Koehler
critical supersaturation, the square root of 4 A cubed over 27 kappa times
the dry radius cubed, decided here without leaving the rationals. -/
def activatedBin (A Smax : ℚ) (b : AerosolBin) : Bool :=
  decide (0 < Smax) && decide (4 * A ^ 3 < Smax ^ 2 * (27 * b.kappa * b.r_dry ^ 3))

/-- Modelled from the spec: a single pass over the bins accumulating the
activated number concentration and the total number concentration. -/
def actTotals (A Smax : ℚ) (bins : List AerosolBin) : ℚ × ℚ :=
  bins.foldl
    (fun acc b => (acc.1 + (if activatedBin A Smax b then b.N else 0), acc.2 + b.N))
    (0, 0)

/-- Modelled from the spec: a single pass over the bins and their wet sizes
accumulating the activated and total condensed mass. -/
def actMassTotals (A Smax : ℚ) (bins : List AerosolBin) (wetSizes : List ℚ) : ℚ × ℚ :=
  (List.zip bins wetSizes).foldl
    (fun acc p =>
      (acc.1 + (if activatedBin A Smax p.1 then p.1.N * p.2 ^ 3 else 0),
       acc.2 + p.1.N * p.2 ^ 3))
    (0, 0)

/-- Modelled from the spec: the activation diagnostic.  Given the peak
supersaturation, the temperature, the wet sizes at the moment of the peak
and the aerosol species, it classifies each bin by Koehler theory and
returns the aggregate activated number fraction and mass fraction. -/
def act_fraction (Smax T : ℚ) (wetSizes : List ℚ) (aer : AerosolSpecies) : ℚ × ℚ :=
  let A := kelvinA T
  let nums := actTotals A Smax aer.bins
  let masses := actMassTotals A Smax aer.bins wetSizes
  (nums.1 / nums.2, masses.1 / masses.2)

/-! ## Closed-form activation parameterizations (spec section 4.6) -/

/-- Modelled from the spec: the ARG2000 closed-form predicted maximum
supersaturation, a self-contained analytic approximation in the updraft
speed, the initial thermodynamic state and the aerosol population. -/
def smaxArg (V T0 P0 ac : ℚ) (aer : AerosolSpecies) : ℚ :=
  let Ntot := (aer.bins.map AerosolBin.N).foldr (· + ·) 0
  V * T0 / (V * T0 + P0 * (1 + ac) * Ntot)

/-- Modelled from the spec: the MBN2014 closed-form predicted maximum
supersaturation, a self-contained iterative approximation: a fixed
refinement map applied three times to an analytic first guess. -/
def smaxMbn (V T0 P0 ac : ℚ) (aer : AerosolSpecies) : ℚ :=
  let Ntot := (aer.bins.map AerosolBin.N).foldr (· + ·) 0
  let base := V * T0 / (V * T0 + P0 * (1 + 2 * ac) * Ntot)
  (fun s => (s + base) / 2)^[3] (2 * base)

/-- Modelled from the spec: the aggregate activated number fraction of one
species when the ambient peak supersaturation is Smax. -/
def eqActFraction (A Smax : ℚ) (aer : AerosolSpecies) : ℚ :=
  (actTotals A Smax aer.bins).1 / (actTotals A Smax aer.bins).2

/-- Modelled from the spec: the ARG2000 activation parameterization, a pure
function of (V, T0, P0, population, accommodation coefficient) returning
the predicted maximum supersaturation, the per-species Kelvin coefficient,
and the per-species predicted activated fraction; it never invokes the ODE
integrator. -/
def arg2000 (V T0 P0 : ℚ) (aers : List AerosolSpecies) (ac : ℚ) :
    ℚ × List ℚ × List ℚ :=
  let smax := (aers.map (fun aer => smaxArg V T0 P0 ac aer)).foldr max 0
  (smax, aers.map (fun _ => kelvinA T0),
    aers.map (fun aer => eqActFraction (kelvinA T0) smax aer))

/-- Modelled from the spec: the MBN2014 activation parameterization, a pure
function of (V, T0, P0, population, accommodation coefficient) returning
the predicted maximum supersaturation, the per-species Kelvin coefficient,
and the per-species predicted activated fraction; it never invokes the ODE
integrator. -/
def mbn2014 (V T0 P0 : ℚ) (aers : List AerosolSpecies) (ac : ℚ) :
    ℚ × List ℚ × List ℚ :=
  let smax := (aers.map (fun aer => smaxMbn V T0 P0 ac aer)).foldr max 0
  (smax, aers.map (fun _ => kelvinA T0),
    aers.map (fun aer => eqActFraction (kelvinA T0) smax aer))

/-- Modelled from the spec: the ARG2000 parameterization as called with a
full simulation configuration; only the five fields of the contract are
consumed. -/
def arg2000FromConfig (cfg : SimulationConfig) (aers : List AerosolSpecies) :
    ℚ × List ℚ × List ℚ :=
  arg2000 cfg.V cfg.T0 cfg.P0 aers cfg.accom

/-- Modelled from the spec: the MBN2014 parameterization as called with a
full simulation configuration; only the five fields of the contract are
consumed. -/
def mbn2014FromConfig (cfg : SimulationConfig) (aers : List AerosolSpecies) :
    ℚ × List ℚ × List ℚ :=
  mbn2014 cfg.V cfg.T0 cfg.P0 aers cfg.accom

/-! ## Tabular result surface (spec section 6) -/

/-- Modelled from the spec: the parcel trajectory table: one row per
sample, columns time, pressure, temperature and supersaturation S. -/
def parcelTable (traj : List (ℚ × ParcelState)) : List (ℚ × ℚ × ℚ × ℚ) :=
  traj.map fun p => (p.1, p.2.P, p.2.T, p.2.S)

/-- Modelled from the spec: the per-species wet-radius table: one row per
sample, indexed by the same time values as the parcel table. -/
def radiiTable (traj : List (ℚ × ParcelState)) : List (ℚ × List ℚ) :=
  traj.map fun p => (p.1, p.2.radii)

/-- Modelled from the spec: ParcelModel.run with output equal to
dataframes: the parcel trajectory table paired with a per-species mapping
keyed by species name. -/
def runDataframes (cfg : SimulationConfig) (aer : AerosolSpecies) :
    Except ModelError ((List (ℚ × ℚ × ℚ × ℚ)) × List (String × List (ℚ × List ℚ))) :=
  (ParcelModel.run cfg aer).map fun traj =>
    (parcelTable traj, [(aer.name, radiiTable traj)])

/-! ## Concrete scan scenario (spec section 8) -/

/-- Modelled from the spec: the fixed aerosol population of the updraft
scan scenario, a two-bin discretization of an ammonium sulfate mode. -/
def scanAerosol : AerosolSpecies :=
  { name := "ammonium sulfate",
    bins := [ { r_dry := 1/100000, N := 425, kappa := 27/50 },
              { r_dry := 3/100000, N := 425, kappa := 27/50 } ] }

/-- Modelled from the spec: the scan scenario configuration at updraft
speed v, with the fixed initial thermodynamic state of the example. -/
def scanCfg (v : ℚ) : SimulationConfig :=
  { V := v, T0 := 286, S0 := -1/50, P0 := 91200, accom := 1/10,
    dt := 2, nSteps := 2, maxSteps := 100, rtol := 1/1000000, atol := 1/1000000000 }

/-- Modelled from the spec: the trajectory of the scan scenario run at
updraft speed v. -/
def scanTraj (v : ℚ) : List (ℚ × ParcelState) :=
  trajList (scanCfg v) scanAerosol 2

/-- Modelled from the spec: the activated number fraction diagnosed from
the scan scenario run at updraft speed v, evaluated at its peak
supersaturation with the wet sizes of the final sample. -/
def scanActFrac (v : ℚ) : ℚ :=
  (act_fraction (smaxOfTraj (scanTraj v)) 286
    (((scanTraj v).getLast?.map (fun p => p.2.radii)).getD []) scanAerosol).1

/-! ## Basic lemmas about the embedded model -/

lemma esat_pos {T : ℚ} (hT : T ≠ 0) : 0 < esat T := by
  have : 0 < T ^ 2 := by positivity
  simpa [esat] using by positivity

lemma wvSat_pos {T P : ℚ} (hT : 0 < T) (h : esat T < P) : 0 < wvSat T P := by
  have h1 : 0 < esat T := esat_pos hT.ne'
  have h2 : 0 < P - esat T := by linarith
  have h3 : (0:ℚ) < epsR := by norm_num [epsR]
  exact div_pos (mul_pos h3 h1) h2

lemma solverOk_iff (s : ParcelState) :
    solverOk s = true ↔ 0 < s.T ∧ esat s.T < s.P := by
  simp [solverOk]

lemma stepState_P (cfg : SimulationConfig) (aer : AerosolSpecies) (s : ParcelState) :
    (stepState cfg aer s).P = stepP cfg s := rfl

lemma stepState_T (cfg : SimulationConfig) (aer : AerosolSpecies) (s : ParcelState) :
    (stepState cfg aer s).T = stepT cfg aer s := rfl

lemma stepState_radii (cfg : SimulationConfig) (aer : AerosolSpecies) (s : ParcelState) :
    (stepState cfg aer s).radii = stepRadii cfg aer s := rfl

lemma stepState_S (cfg : SimulationConfig) (aer : AerosolSpecies) (s : ParcelState) :
    (stepState cfg aer s).S =
      (vaporMass s.S s.T s.P - stepDwc cfg aer s) /
        wvSat (stepT cfg aer s) (stepP cfg s) - 1 := rfl

/-- Key conservation step: when the solver accepts the new state (so its
saturation vapor measure is positive), the total water mass is unchanged
by one step, because the supersaturation is recovered from the vapor mass
left after the condensation uptake. -/
lemma totalWater_step (cfg : SimulationConfig) (aer : AerosolSpecies) (s : ParcelState)
    (h : wvSat (stepT cfg aer s) (stepP cfg s) ≠ 0) :
    totalWater aer.bins (stepState cfg aer s) = totalWater aer.bins s := by
  have hvap : vaporMass (stepState cfg aer s).S (stepState cfg aer s).T
      (stepState cfg aer s).P = vaporMass s.S s.T s.P - stepDwc cfg aer s := by
    rw [stepState_S, stepState_T, stepState_P]
    unfold vaporMass
    rw [sub_add_cancel, div_mul_cancel₀ _ h]
  have hwc : wcMass aer.bins (stepState cfg aer s).radii =
      wcMass aer.bins s.radii + stepDwc cfg aer s := by
    rw [stepState_radii]; unfold stepDwc; ring
  unfold totalWater
  rw [hvap, hwc]; ring

lemma runSamples_succ (cfg : SimulationConfig) (aer : AerosolSpecies) (k : ℕ) :
    runSamples cfg aer (k + 1) = stepState cfg aer (runSamples cfg aer k) := rfl

/-- Exact water conservation along every accepted sample. -/
lemma runSamples_conserved (cfg : SimulationConfig) (aer : AerosolSpecies) (k : ℕ)
    (hok : ∀ j, 1 ≤ j → j ≤ k → solverOk (runSamples cfg aer j) = true) :
    totalWater aer.bins (runSamples cfg aer k) = totalWater aer.bins (initState cfg aer) := by
  induction k with
  | zero => rfl
  | succ n ih =>
    have h1 := (solverOk_iff _).mp (hok (n+1) (by omega) le_rfl)
    rw [runSamples_succ] at h1 ⊢
    rw [stepState_T, stepState_P] at h1
    have hw : wvSat (stepT cfg aer (runSamples cfg aer n)) (stepP cfg (runSamples cfg aer n)) ≠ 0 :=
      (wvSat_pos h1.1 h1.2).ne'
    rw [totalWater_step cfg aer _ hw]
    exact ih fun j hj1 hj2 => hok j hj1 (by omega)

/-- Decomposition of a successful run: the returned trajectory is the full
sample list, the step budget was not exceeded, and every sample after the
initial one was accepted by the solver. -/
lemma run_ok_elim {cfg : SimulationConfig} {aer : AerosolSpecies}
    {traj : List (ℚ × ParcelState)} (h : ParcelModel.run cfg aer = .ok traj) :
    traj = trajList cfg aer cfg.nSteps ∧ cfg.nSteps ≤ cfg.maxSteps ∧
      ∀ j, 1 ≤ j → j ≤ cfg.nSteps → solverOk (runSamples cfg aer j) = true := by
  unfold ParcelModel.run at h
  cases hf : (List.range' 1 (min cfg.nSteps cfg.maxSteps)).find?
      (fun j => !solverOk (runSamples cfg aer j)) with
  | some j => rw [hf] at h; exact absurd h (by simp)
  | none =>
    rw [hf] at h
    by_cases hnm : cfg.nSteps ≤ cfg.maxSteps
    · rw [if_pos hnm] at h
      refine ⟨(Except.ok.injEq _ _).mp h |>.symm, hnm, ?_⟩
      intro j hj1 hj2
      have hmem : j ∈ List.range' 1 (min cfg.nSteps cfg.maxSteps) := by
        rw [min_eq_left hnm]
        exact List.mem_range'_1.mpr ⟨hj1, by omega⟩
      have := List.find?_eq_none.mp hf j hmem
      simpa using this
    · rw [if_neg hnm] at h; exact absurd h (by simp)

/-- Composition of a successful run from solver acceptance of every
sample. -/
lemma run_ok_of (cfg : SimulationConfig) (aer : AerosolSpecies)
    (hnm : cfg.nSteps ≤ cfg.maxSteps)
    (hok : ∀ j ∈ List.range' 1 cfg.nSteps, solverOk (runSamples cfg aer j) = true) :
    ParcelModel.run cfg aer = .ok (trajList cfg aer cfg.nSteps) := by
  have hfind : (List.range' 1 (min cfg.nSteps cfg.maxSteps)).find?
      (fun j => !solverOk (runSamples cfg aer j)) = none := by
    refine List.find?_eq_none.mpr fun x hx => ?_
    rw [min_eq_left hnm] at hx
    simp [hok x hx]
  unfold ParcelModel.run
  rw [hfind, if_pos hnm]

lemma mem_trajList {cfg : SimulationConfig} {aer : AerosolSpecies} {n : ℕ}
    {p : ℚ × ParcelState} (hp : p ∈ trajList cfg aer n) :
    ∃ j, j ≤ n ∧ p = ((j : ℚ) * cfg.dt, runSamples cfg aer j) := by
  unfold trajList at hp
  obtain ⟨j, hj, rfl⟩ := List.mem_map.mp hp
  exact ⟨j, Nat.lt_succ_iff.mp (List.mem_range.mp hj), rfl⟩

/-- Claim C1: for every valid SimulationConfig, at every sample of the
Trajectory produced by a simulation run, the total water mass (vapor
implied by S, T, P plus condensed water mass summed over all bins) equals
the initial total water mass to within the configured relative tolerance
(here it is conserved exactly, hence within any non-negative tolerance). -/
theorem C1_total_water_conservation (cfg : SimulationConfig) (aer : AerosolSpecies)
    (traj : List (ℚ × ParcelState)) (hc : ValidConfig cfg)
    (h : ParcelModel.run cfg aer = .ok traj) :
    ∀ p ∈ traj,
      |totalWater aer.bins p.2 - totalWater aer.bins (initState cfg aer)| ≤
        cfg.rtol * |totalWater aer.bins (initState cfg aer)| := by
  obtain ⟨htraj, -, hok⟩ := run_ok_elim h
  intro p hp
  rw [htraj] at hp
  obtain ⟨j, hj, rfl⟩ := mem_trajList hp
  have hcons := runSamples_conserved cfg aer j fun i hi1 hi2 => hok i hi1 (by omega)
  rw [hcons, sub_self, abs_zero]
  exact mul_nonneg hc.2.2.2.1 (abs_nonneg _)

/-- A scan-scenario run succeeds once the solver accepts both steps. -/
lemma scanRun_ok_of (v : ℚ)
    (h1 : solverOk (runSamples (scanCfg v) scanAerosol 1) = true)
    (h2 : solverOk (runSamples (scanCfg v) scanAerosol 2) = true) :
    ParcelModel.run (scanCfg v) scanAerosol = .ok (scanTraj v) := by
  refine run_ok_of (scanCfg v) scanAerosol (by norm_num [scanCfg]) ?_
  intro j hj
  have hj' : j = 1 ∨ j = 2 := by
    have hm : j ∈ List.range' 1 2 := hj
    simp [List.range'] at hm
    omega
  rcases hj' with rfl | rfl
  · exact h1
  · exact h2

set_option maxRecDepth 4000 in
set_option maxHeartbeats 1000000 in
lemma scanOk_mid_1 : solverOk (runSamples (scanCfg 1) scanAerosol 1) = true := by
  with_unfolding_all decide

set_option maxRecDepth 4000 in
set_option maxHeartbeats 1000000 in
lemma scanOk_mid_2 : solverOk (runSamples (scanCfg 1) scanAerosol 2) = true := by
  with_unfolding_all decide

/-- The scan-scenario run at updraft speed 1 succeeds with the full
two-step trajectory. -/
lemma scanRun_ok_mid : ParcelModel.run (scanCfg 1) scanAerosol = .ok (scanTraj 1) :=
  scanRun_ok_of 1 scanOk_mid_1 scanOk_mid_2

lemma scanValid_mid : ValidConfig (scanCfg 1) := by with_unfolding_all decide

/-- Witness for C1 at the concrete scan scenario with updraft speed 1. -/
theorem C1_witness :
    ValidConfig (scanCfg 1) ∧
    ParcelModel.run (scanCfg 1) scanAerosol = .ok (scanTraj 1) ∧
    ∀ p ∈ scanTraj 1,
      |totalWater scanAerosol.bins p.2 -
          totalWater scanAerosol.bins (initState (scanCfg 1) scanAerosol)| ≤
        (scanCfg 1).rtol *
          |totalWater scanAerosol.bins (initState (scanCfg 1) scanAerosol)| :=
  ⟨scanValid_mid, scanRun_ok_mid,
    C1_total_water_conservation (scanCfg 1) scanAerosol (scanTraj 1) scanValid_mid
      scanRun_ok_mid⟩

/-! ## Monotonicity of time and pressure (claim C2) -/

lemma stepP_lt {cfg : SimulationConfig} {s : ParcelState}
    (hV : 0 < cfg.V) (hdt : 0 < cfg.dt) (hT : 0 < s.T) (hP : esat s.T < s.P) :
    stepP cfg s < s.P := by
  have hPpos : 0 < s.P := lt_trans (esat_pos hT.ne') hP
  have hrho : 0 < rhoAir s.T s.P := by
    have : (0:ℚ) < rdAir := by norm_num [rdAir]
    exact div_pos hPpos (by positivity)
  have hg : (0:ℚ) < gAccel := by norm_num [gAccel]
  have : 0 < cfg.dt * gAccel * cfg.V * rhoAir s.T s.P := by positivity
  unfold stepP
  linarith

/-- Along an accepted run every sample stays in the physically integrable
region: the initial one by configuration validity, the later ones by
solver acceptance. -/
lemma sample_pos (cfg : SimulationConfig) (aer : AerosolSpecies) (n : ℕ)
    (hc : ValidConfig cfg)
    (hok : ∀ j, 1 ≤ j → j ≤ n → solverOk (runSamples cfg aer j) = true) :
    ∀ k, k ≤ n → 0 < (runSamples cfg aer k).T ∧
      esat (runSamples cfg aer k).T < (runSamples cfg aer k).P := by
  intro k hk
  cases k with
  | zero => exact ⟨hc.2.1, hc.2.2.1⟩
  | succ m => exact (solverOk_iff _).mp (hok (m+1) (by omega) hk)

/-- Pressure decreases strictly from each accepted sample to the next. -/
lemma sample_P_strict (cfg : SimulationConfig) (aer : AerosolSpecies) (n : ℕ)
    (hc : ValidConfig cfg) (hV : 0 < cfg.V)
    (hok : ∀ j, 1 ≤ j → j ≤ n → solverOk (runSamples cfg aer j) = true) :
    ∀ i j, i < j → j ≤ n →
      (runSamples cfg aer j).P < (runSamples cfg aer i).P := by
  intro i j hij hjn
  induction j with
  | zero => omega
  | succ m ih =>
    have hpos := sample_pos cfg aer n hc hok m (by omega)
    have hstep : (runSamples cfg aer (m+1)).P < (runSamples cfg aer m).P := by
      rw [runSamples_succ, stepState_P]
      exact stepP_lt hV hc.1 hpos.1 hpos.2
    rcases Nat.lt_succ_iff_lt_or_eq.mp hij with h | rfl
    · exact lt_trans hstep (ih h (by omega))
    · exact hstep

lemma trajList_length (cfg : SimulationConfig) (aer : AerosolSpecies) (n : ℕ) :
    (trajList cfg aer n).length = n + 1 := by
  simp [trajList]

lemma trajList_getElem (cfg : SimulationConfig) (aer : AerosolSpecies) (n i : ℕ)
    (hi : i < (trajList cfg aer n).length) :
    (trajList cfg aer n)[i] = ((i : ℚ) * cfg.dt, runSamples cfg aer i) := by
  simp [trajList]

/-- Claim C2: for every valid SimulationConfig with positive updraft speed,
the Trajectory returned by ParcelModel.run has strictly increasing sample
times (hence non-decreasing) and strictly decreasing pressure (hence
non-increasing) across its ordered sequence of samples. -/
theorem C2_time_pressure_monotone (cfg : SimulationConfig) (aer : AerosolSpecies)
    (traj : List (ℚ × ParcelState)) (hc : ValidConfig cfg) (hV : 0 < cfg.V)
    (h : ParcelModel.run cfg aer = .ok traj) :
    ∀ i j (hi : i < traj.length) (hj : j < traj.length), i < j →
      traj[i].1 < traj[j].1 ∧ traj[j].2.P < traj[i].2.P := by
  obtain ⟨htraj, -, hok⟩ := run_ok_elim h
  subst htraj
  intro i j hi hj hij
  rw [trajList_getElem cfg aer _ i hi, trajList_getElem cfg aer _ j hj]
  constructor
  · have : (i : ℚ) < (j : ℚ) := by exact_mod_cast hij
    exact mul_lt_mul_of_pos_right this hc.1
  · have hjn : j ≤ cfg.nSteps := by
      have := trajList_length cfg aer cfg.nSteps
      omega
    exact sample_P_strict cfg aer cfg.nSteps hc hV hok i j hij hjn

/-- Witness for C2 at the concrete scan scenario with updraft speed 1. -/
theorem C2_witness :
    ValidConfig (scanCfg 1) ∧ 0 < (scanCfg 1).V ∧
    ∀ i j (hi : i < (scanTraj 1).length) (hj : j < (scanTraj 1).length), i < j →
      (scanTraj 1)[i].1 < (scanTraj 1)[j].1 ∧
      (scanTraj 1)[j].2.P < (scanTraj 1)[i].2.P :=
  ⟨scanValid_mid, by norm_num [scanCfg],
    C2_time_pressure_monotone (scanCfg 1) scanAerosol (scanTraj 1) scanValid_mid
      (by norm_num [scanCfg]) scanRun_ok_mid⟩

/-! ## Wet radius stays at or above dry radius (claim C3) -/

/-- Along any sample of a run, the radii vector stays aligned with the bin
list and every wet radius stays at or above its bin's dry radius. -/
lemma runSamples_radii_inv (cfg : SimulationConfig) (aer : AerosolSpecies)
    (ha : ∀ b ∈ aer.bins, 0 ≤ b.r_dry) (k : ℕ) :
    (runSamples cfg aer k).radii.length = aer.bins.length ∧
      ∀ i (hi : i < aer.bins.length) (hi' : i < (runSamples cfg aer k).radii.length),
        aer.bins[i].r_dry ≤ (runSamples cfg aer k).radii[i] := by
  induction k with
  | zero =>
    refine ⟨by simp [runSamples, initState], ?_⟩
    intro i hi hi'
    show aer.bins[i].r_dry ≤ (aer.bins.map fun b => 2 * b.r_dry)[i]
    rw [List.getElem_map]
    have := ha aer.bins[i] (aer.bins.getElem_mem hi)
    linarith
  | succ n ih =>
    have hlen : (runSamples cfg aer (n+1)).radii.length = aer.bins.length := by
      rw [runSamples_succ, stepState_radii]
      unfold stepRadii
      rw [List.length_zipWith, ih.1, min_self]
    refine ⟨hlen, ?_⟩
    intro i hi hi'
    have he : (runSamples cfg aer (n+1)).radii =
        List.zipWith
          (fun b r => max b.r_dry
            (r + cfg.dt * drdt (runSamples cfg aer n).T (runSamples cfg aer n).P
              (runSamples cfg aer n).S cfg.accom b.kappa b.r_dry r))
          aer.bins (runSamples cfg aer n).radii := rfl
    rw [List.getElem_of_eq he, List.getElem_zipWith]
    exact le_max_left _ _

/-- Claim C3: throughout every simulation run, every bin's wet radius
remains greater than or equal to that bin's dry radius at every accepted
trajectory sample. -/
theorem C3_radius_bounded (cfg : SimulationConfig) (aer : AerosolSpecies)
    (traj : List (ℚ × ParcelState)) (ha : ValidAerosol aer)
    (h : ParcelModel.run cfg aer = .ok traj) :
    ∀ p ∈ traj, ∀ i (hi : i < aer.bins.length),
      ∃ hi' : i < p.2.radii.length, aer.bins[i].r_dry ≤ p.2.radii[i] := by
  obtain ⟨htraj, -, -⟩ := run_ok_elim h
  intro p hp i hi
  rw [htraj] at hp
  obtain ⟨j, hj, rfl⟩ := mem_trajList hp
  have hb : ∀ b ∈ aer.bins, 0 ≤ b.r_dry := fun b hb => (ha.2 b hb).1.le
  obtain ⟨hlen, hinv⟩ := runSamples_radii_inv cfg aer hb j
  exact ⟨show i < (runSamples cfg aer j).radii.length by omega,
    hinv i hi (by omega)⟩

/-- Witness for C3 at the concrete scan scenario with updraft speed 1. -/
theorem C3_witness :
    ValidAerosol scanAerosol ∧
    ∀ p ∈ scanTraj 1, ∀ i (hi : i < scanAerosol.bins.length),
      ∃ hi' : i < p.2.radii.length, scanAerosol.bins[i].r_dry ≤ p.2.radii[i] := by
  have ha : ValidAerosol scanAerosol := by
    constructor
    · norm_num [scanAerosol]
    · intro b hb
      simp [scanAerosol] at hb
      rcases hb with rfl | rfl <;> norm_num
  exact ⟨ha, C3_radius_bounded (scanCfg 1) scanAerosol (scanTraj 1) ha scanRun_ok_mid⟩

/-! ## Integration failure carries the partial trajectory (claim C8) -/

lemma trajList_getLast (cfg : SimulationConfig) (aer : AerosolSpecies) (k : ℕ) :
    (trajList cfg aer k).getLast? = some ((k : ℚ) * cfg.dt, runSamples cfg aer k) := by
  unfold trajList
  rw [List.range_succ, List.map_append]
  simp

/-- Claim C8: whenever the run fails, it fails with an integration error
(never a configuration or domain error) carrying the last good parcel
state together with the partial trajectory accumulated up to the failure
point, whose final sample is exactly that last good state. -/
theorem C8_failure_preserves_partial (cfg : SimulationConfig) (aer : AerosolSpecies)
    (e : ModelError) (h : ParcelModel.run cfg aer = .error e) :
    ∃ k, e = .integrationError (runSamples cfg aer k) (trajList cfg aer k) ∧
      (trajList cfg aer k).getLast? = some ((k : ℚ) * cfg.dt, runSamples cfg aer k) := by
  unfold ParcelModel.run at h
  cases hf : (List.range' 1 (min cfg.nSteps cfg.maxSteps)).find?
      (fun j => !solverOk (runSamples cfg aer j)) with
  | some j =>
    rw [hf] at h
    refine ⟨j - 1, ?_, trajList_getLast cfg aer (j - 1)⟩
    have := (Except.error.injEq _ _).mp h
    exact this.symm
  | none =>
    rw [hf] at h
    by_cases hnm : cfg.nSteps ≤ cfg.maxSteps
    · rw [if_pos hnm] at h; exact absurd h (by simp)
    · rw [if_neg hnm] at h
      refine ⟨min cfg.nSteps cfg.maxSteps, ?_, trajList_getLast cfg aer _⟩
      exact ((Except.error.injEq _ _).mp h).symm

/-- A configuration identical to the scan scenario at updraft speed 1 but
with a step budget smaller than the requested number of steps. -/
def failCfg : SimulationConfig := { scanCfg 1 with nSteps := 5, maxSteps := 1 }

set_option maxRecDepth 4000 in
set_option maxHeartbeats 1000000 in
lemma failOk_1 : solverOk (runSamples failCfg scanAerosol 1) = true := by
  with_unfolding_all decide

/-- The budget-bounded run fails with an integration error carrying the
one-step partial trajectory. -/
lemma failRun : ParcelModel.run failCfg scanAerosol =
    .error (.integrationError (runSamples failCfg scanAerosol 1)
      (trajList failCfg scanAerosol 1)) := by
  have hmin : min failCfg.nSteps failCfg.maxSteps = 1 := by norm_num [failCfg, scanCfg]
  have hfind : (List.range' 1 (min failCfg.nSteps failCfg.maxSteps)).find?
      (fun j => !solverOk (runSamples failCfg scanAerosol j)) = none := by
    refine List.find?_eq_none.mpr fun x hx => ?_
    rw [hmin] at hx
    have hx1 : x = 1 := by simp [List.range'] at hx; omega
    subst hx1
    simp [failOk_1]
  unfold ParcelModel.run
  rw [hfind, if_neg (by norm_num [failCfg, scanCfg]), hmin]

/-- Witness for C8 at a concrete budget-exceeded run. -/
theorem C8_witness :
    ParcelModel.run failCfg scanAerosol =
      .error (.integrationError (runSamples failCfg scanAerosol 1)
        (trajList failCfg scanAerosol 1)) ∧
    ∃ k, ModelError.integrationError (runSamples failCfg scanAerosol 1)
        (trajList failCfg scanAerosol 1) =
        .integrationError (runSamples failCfg scanAerosol k) (trajList failCfg scanAerosol k) ∧
      (trajList failCfg scanAerosol k).getLast? =
        some ((k : ℚ) * failCfg.dt, runSamples failCfg scanAerosol k) :=
  ⟨failRun, C8_failure_preserves_partial failCfg scanAerosol _ failRun⟩

/-! ## Configuration errors are a setup-time matter (claim C7) -/

/-- Claim C7: constructing an aerosol species fails with a configuration
error exactly when the bin count is below 2, kappa is non-positive, or a
distribution parameter is non-positive; and a run never fails with a
configuration error, so such errors arise at setup time only. -/
theorem C7_configuration_error (name : String) (dist : Lognorm) (kap : ℚ) (nbins : ℕ) :
    ((∃ msg, mkAerosolSpecies name dist kap nbins = .error (.configurationError msg)) ↔
      nbins < 2 ∨ kap ≤ 0 ∨ dist.mu ≤ 0 ∨ dist.sigma ≤ 0 ∨ dist.N ≤ 0) ∧
    ∀ cfg aer msg, ParcelModel.run cfg aer ≠ .error (.configurationError msg) := by
  constructor
  · constructor
    · rintro ⟨msg, hm⟩
      unfold mkAerosolSpecies at hm
      split_ifs at hm with h1 h2 h3
      · exact Or.inl h1
      · exact Or.inr (Or.inl h2)
      · rcases h3 with h | h | h
        · exact Or.inr (Or.inr (Or.inl h))
        · exact Or.inr (Or.inr (Or.inr (Or.inl h)))
        · exact Or.inr (Or.inr (Or.inr (Or.inr h)))
    · intro h
      unfold mkAerosolSpecies
      by_cases h1 : nbins < 2
      · exact ⟨_, by rw [if_pos h1]⟩
      · by_cases h2 : kap ≤ 0
        · exact ⟨_, by rw [if_neg h1, if_pos h2]⟩
        · have h3 : dist.mu ≤ 0 ∨ dist.sigma ≤ 0 ∨ dist.N ≤ 0 := by tauto
          exact ⟨_, by rw [if_neg h1, if_neg h2, if_pos h3]⟩
  · intro cfg aer msg hcon
    unfold ParcelModel.run at hcon
    cases hf : (List.range' 1 (min cfg.nSteps cfg.maxSteps)).find?
        (fun j => !solverOk (runSamples cfg aer j)) with
    | some j => rw [hf] at hcon; exact absurd hcon (by simp)
    | none =>
      rw [hf] at hcon
      by_cases hnm : cfg.nSteps ≤ cfg.maxSteps
      · rw [if_pos hnm] at hcon; exact absurd hcon (by simp)
      · rw [if_neg hnm] at hcon; exact absurd hcon (by simp)

/-- Witness for C7: a one-bin construction is rejected at setup, and the
concrete scenario run cannot fail with a configuration error. -/
theorem C7_witness :
    (∃ msg, mkAerosolSpecies "ammonium sulfate" ⟨3/200, 8/5, 850⟩ (27/50) 1 =
      .error (.configurationError msg)) ∧
    ∀ msg, ParcelModel.run (scanCfg 1) scanAerosol ≠ .error (.configurationError msg) :=
  ⟨(C7_configuration_error "ammonium sulfate" ⟨3/200, 8/5, 850⟩ (27/50) 1).1.mpr
      (Or.inl (by norm_num)),
    fun msg => (C7_configuration_error "ammonium sulfate" ⟨3/200, 8/5, 850⟩ (27/50) 1).2
      (scanCfg 1) scanAerosol msg⟩

/-! ## Activation diagnostic correctness (claim C5) -/

lemma actTotals_go (A Smax : ℚ) (bins : List AerosolBin) (a c : ℚ) :
    bins.foldl
      (fun acc b => (acc.1 + (if activatedBin A Smax b then b.N else 0), acc.2 + b.N))
      (a, c) =
    (a + ((bins.filter (fun b => activatedBin A Smax b)).map AerosolBin.N).sum,
     c + (bins.map AerosolBin.N).sum) := by
  induction bins generalizing a c with
  | nil => simp
  | cons b bs ih =>
    simp only [List.foldl_cons, List.filter_cons, List.map_cons, List.sum_cons]
    by_cases hb : activatedBin A Smax b
    · simp only [hb, if_pos, ih, List.map_cons, List.sum_cons, Prod.mk.injEq]
      constructor <;> ring
    · simp only [hb, Bool.false_eq_true, if_false, ih, Prod.mk.injEq]
      constructor <;> ring

/-- The single-pass totals agree with the specification-side filtered
sums. -/
lemma actTotals_eq (A Smax : ℚ) (bins : List AerosolBin) :
    actTotals A Smax bins =
      (((bins.filter (fun b => activatedBin A Smax b)).map AerosolBin.N).sum,
       (bins.map AerosolBin.N).sum) := by
  unfold actTotals
  rw [actTotals_go]
  simp

/-- The rational decision procedure of activatedBin agrees with the
real-valued Koehler critical supersaturation comparison. -/
lemma activatedBin_iff_sqrt (A Smax : ℚ) (b : AerosolBin)
    (hA : 0 < A) (hk : 0 < b.kappa) (hr : 0 < b.r_dry) :
    activatedBin A Smax b = true ↔
      Real.sqrt ((4 * (A:ℝ)^3) / (27 * (b.kappa:ℝ) * (b.r_dry:ℝ)^3)) < (Smax:ℝ) := by
  have hden : (0:ℝ) < 27 * (b.kappa:ℝ) * (b.r_dry:ℝ)^3 := by
    have hk' : (0:ℝ) < (b.kappa:ℝ) := by exact_mod_cast hk
    have hr' : (0:ℝ) < (b.r_dry:ℝ) := by exact_mod_cast hr
    positivity
  unfold activatedBin
  rw [Bool.and_eq_true, decide_eq_true_eq, decide_eq_true_eq]
  constructor
  · rintro ⟨h0, hlt⟩
    have h0' : (0:ℝ) < (Smax:ℝ) := by exact_mod_cast h0
    rw [Real.sqrt_lt' h0', div_lt_iff hden]
    have : (4:ℝ) * (A:ℝ)^3 < (Smax:ℝ)^2 * (27 * (b.kappa:ℝ) * (b.r_dry:ℝ)^3) := by
      exact_mod_cast hlt
    linarith
  · intro h
    have h0' : (0:ℝ) < (Smax:ℝ) := lt_of_le_of_lt (Real.sqrt_nonneg _) h
    have h0 : 0 < Smax := by exact_mod_cast h0'
    rw [Real.sqrt_lt' h0', div_lt_iff hden] at h
    exact ⟨h0, by exact_mod_cast h⟩

/-- Claim C5: the activation diagnostic classifies a bin as activated
exactly when the peak supersaturation exceeds the bin's Koehler critical
supersaturation (a function of its dry radius and kappa), and the
aggregate activated number fraction it returns is the activated number
concentration divided by the total number concentration. -/
theorem C5_act_fraction_correct (Smax T : ℚ) (ws : List ℚ) (aer : AerosolSpecies)
    (hT : 0 < T) (ha : ValidAerosol aer) :
    (act_fraction Smax T ws aer).1 =
      ((aer.bins.filter (fun b => activatedBin (kelvinA T) Smax b)).map AerosolBin.N).sum /
        ((aer.bins.map AerosolBin.N).sum) ∧
    ∀ b ∈ aer.bins,
      (activatedBin (kelvinA T) Smax b = true ↔
        Real.sqrt ((4 * ((kelvinA T : ℚ):ℝ)^3) /
          (27 * (b.kappa:ℝ) * (b.r_dry:ℝ)^3)) < (Smax:ℝ)) := by
  have hA : 0 < kelvinA T := by
    unfold kelvinA
    have : (0:ℚ) < aCoeffC := by norm_num [aCoeffC]
    positivity
  constructor
  · show (actTotals (kelvinA T) Smax aer.bins).1 / (actTotals (kelvinA T) Smax aer.bins).2 = _
    rw [actTotals_eq]
  · intro b hb
    exact activatedBin_iff_sqrt (kelvinA T) Smax b hA (ha.2 b hb).2.2 (ha.2 b hb).1

/-- Witness for C5 at a concrete peak supersaturation and population. -/
theorem C5_witness :
    (0:ℚ) < 286 ∧ ValidAerosol scanAerosol ∧
    ((act_fraction (1/100) 286 [] scanAerosol).1 =
      ((scanAerosol.bins.filter
          (fun b => activatedBin (kelvinA 286) (1/100) b)).map AerosolBin.N).sum /
        ((scanAerosol.bins.map AerosolBin.N).sum) ∧
     ∀ b ∈ scanAerosol.bins,
      (activatedBin (kelvinA 286) (1/100) b = true ↔
        Real.sqrt ((4 * ((kelvinA 286 : ℚ):ℝ)^3) /
          (27 * (b.kappa:ℝ) * (b.r_dry:ℝ)^3)) < ((1/100 : ℚ):ℝ))) := by
  have ha : ValidAerosol scanAerosol := by
    constructor
    · norm_num [scanAerosol]
    · intro b hb
      simp [scanAerosol] at hb
      rcases hb with rfl | rfl <;> norm_num
  exact ⟨by norm_num, ha, C5_act_fraction_correct (1/100) 286 [] scanAerosol (by norm_num) ha⟩

/-! ## Parameterizations are pure and integrator-independent (claim C6) -/

/-- Claim C6 as amended: each closed-form activation parameterization is a pure
function of the tuple (V, T0, P0, population, accommodation coefficient):
its result is unchanged by any variation of the integrator-facing
configuration (output step, step count, budget, tolerances), so it never
invokes the ODE integrator; and it returns a predicted maximum
supersaturation together with one predicted activated fraction per
species of the population. -/
theorem C6_parameterizations_pure (cfg cfg' : SimulationConfig)
    (aers : List AerosolSpecies)
    (hV : cfg.V = cfg'.V) (hT : cfg.T0 = cfg'.T0) (hP : cfg.P0 = cfg'.P0)
    (hac : cfg.accom = cfg'.accom) :
    arg2000FromConfig cfg aers = arg2000FromConfig cfg' aers ∧
    mbn2014FromConfig cfg aers = mbn2014FromConfig cfg' aers ∧
    (arg2000FromConfig cfg aers).2.2.length = aers.length ∧
    (mbn2014FromConfig cfg aers).2.2.length = aers.length := by
  unfold arg2000FromConfig mbn2014FromConfig
  rw [hV, hT, hP, hac]
  refine ⟨rfl, rfl, ?_, ?_⟩ <;> simp [arg2000, mbn2014]

/-- A configuration that shares the physical five-tuple of the scan
scenario at updraft speed 1 but differs in every integrator-facing
field. -/
def otherSolverCfg : SimulationConfig :=
  { scanCfg 1 with dt := 1/2, nSteps := 7, maxSteps := 9, rtol := 1, atol := 2 }

/-- Witness for C6: the predictions agree across two configurations that
differ only in the integrator-facing fields. -/
theorem C6_witness :
    (scanCfg 1).V = otherSolverCfg.V ∧
    arg2000FromConfig (scanCfg 1) [scanAerosol] =
      arg2000FromConfig otherSolverCfg [scanAerosol] ∧
    mbn2014FromConfig (scanCfg 1) [scanAerosol] =
      mbn2014FromConfig otherSolverCfg [scanAerosol] ∧
    (arg2000FromConfig (scanCfg 1) [scanAerosol]).2.2.length = [scanAerosol].length ∧
    (mbn2014FromConfig (scanCfg 1) [scanAerosol]).2.2.length = [scanAerosol].length :=
  ⟨rfl,
    (C6_parameterizations_pure (scanCfg 1) otherSolverCfg [scanAerosol] rfl rfl rfl rfl).1,
    (C6_parameterizations_pure (scanCfg 1) otherSolverCfg [scanAerosol] rfl rfl rfl rfl).2.1,
    (C6_parameterizations_pure (scanCfg 1) otherSolverCfg [scanAerosol] rfl rfl rfl rfl).2.2.1,
    (C6_parameterizations_pure (scanCfg 1) otherSolverCfg [scanAerosol] rfl rfl rfl rfl).2.2.2⟩

/-- Counterexample to claim C6 as stated: the parameterizations do not
return a predicted activated fraction per bin.  They return one aggregate
activated fraction per species, exactly as the example notebook consumes
them (afs_arg[0] for a one-species population): for a single species with
two bins, each returned fraction list has length 1, not 2. -/
theorem C6_counterexample :
    (arg2000 1 286 91200 [scanAerosol] (1/10)).2.2.length ≠ scanAerosol.bins.length ∧
    (mbn2014 1 286 91200 [scanAerosol] (1/10)).2.2.length ≠ scanAerosol.bins.length := by
  constructor <;> simp [arg2000, mbn2014, scanAerosol]

/-! ## Dataframe output alignment (claim C10) -/

lemma mk_ok_name {name : String} {dist : Lognorm} {kap : ℚ} {nb : ℕ}
    {aer : AerosolSpecies} (hmk : mkAerosolSpecies name dist kap nb = .ok aer) :
    aer.name = name := by
  unfold mkAerosolSpecies at hmk
  split_ifs at hmk
  have := (Except.ok.injEq _ _).mp hmk
  rw [← this]

/-- Claim C10: running with dataframe output returns the parcel table
(with its supersaturation column) together with a per-species mapping
keyed by the species name given at construction, whose wet-radius table is
indexed by the same time values as the parcel table, so the wet sizes of
every bin at any parcel-table time (in particular the time of maximum S)
can be looked up in the species table. -/
theorem C10_dataframes_aligned (cfg : SimulationConfig) (aer : AerosolSpecies)
    (name : String) (dist : Lognorm) (kap : ℚ) (nb : ℕ)
    (traj : List (ℚ × ParcelState))
    (hmk : mkAerosolSpecies name dist kap nb = .ok aer)
    (h : ParcelModel.run cfg aer = .ok traj) :
    runDataframes cfg aer = .ok (parcelTable traj, [(name, radiiTable traj)]) ∧
    List.lookup name [(name, radiiTable traj)] = some (radiiTable traj) ∧
    (radiiTable traj).map Prod.fst = (parcelTable traj).map Prod.fst ∧
    (parcelTable traj).map (fun r => r.2.2.2) = traj.map (fun p => p.2.S) ∧
    ∀ j (hj : j < traj.length),
      ∃ hj1 : j < (parcelTable traj).length, ∃ hj2 : j < (radiiTable traj).length,
        (radiiTable traj)[j].1 = (parcelTable traj)[j].1 ∧
        (radiiTable traj)[j].2 = traj[j].2.radii := by
  have hname : aer.name = name := mk_ok_name hmk
  refine ⟨?_, ?_, ?_, ?_, ?_⟩
  · rw [runDataframes, h, hname]
    rfl
  · simp [List.lookup]
  · simp [radiiTable, parcelTable, List.map_map]
  · simp [parcelTable, List.map_map]
  · intro j hj
    refine ⟨by simpa [parcelTable] using hj, by simpa [radiiTable] using hj, ?_, ?_⟩
    · simp [radiiTable, parcelTable]
    · simp [radiiTable]

set_option maxHeartbeats 1000000 in
lemma mk_scanAerosol :
    mkAerosolSpecies "ammonium sulfate" ⟨1/100000, 3, 850⟩ (27/50) 2 = .ok scanAerosol := by
  with_unfolding_all rfl

/-- Witness for C10 at the concrete scan scenario run. -/
theorem C10_witness :
    mkAerosolSpecies "ammonium sulfate" ⟨1/100000, 3, 850⟩ (27/50) 2 = .ok scanAerosol ∧
    runDataframes (scanCfg 1) scanAerosol =
      .ok (parcelTable (scanTraj 1), [("ammonium sulfate", radiiTable (scanTraj 1))]) ∧
    (radiiTable (scanTraj 1)).map Prod.fst = (parcelTable (scanTraj 1)).map Prod.fst :=
  ⟨mk_scanAerosol,
    (C10_dataframes_aligned (scanCfg 1) scanAerosol "ammonium sulfate" ⟨1/100000, 3, 850⟩
      (27/50) 2 (scanTraj 1) mk_scanAerosol scanRun_ok_mid).1,
    (C10_dataframes_aligned (scanCfg 1) scanAerosol "ammonium sulfate" ⟨1/100000, 3, 850⟩
      (27/50) 2 (scanTraj 1) mk_scanAerosol scanRun_ok_mid).2.2.1⟩

/-! ## Updraft scan monotonicity (claim C9) -/

set_option maxRecDepth 4000 in
set_option maxHeartbeats 1000000 in
lemma scanOk_low_1 : solverOk (runSamples (scanCfg (1/10)) scanAerosol 1) = true := by
  with_unfolding_all decide

set_option maxRecDepth 4000 in
set_option maxHeartbeats 1000000 in
lemma scanOk_low_2 : solverOk (runSamples (scanCfg (1/10)) scanAerosol 2) = true := by
  with_unfolding_all decide

set_option maxRecDepth 4000 in
set_option maxHeartbeats 1000000 in
lemma scanOk_high_1 : solverOk (runSamples (scanCfg 10) scanAerosol 1) = true := by
  with_unfolding_all decide

set_option maxRecDepth 4000 in
set_option maxHeartbeats 1000000 in
lemma scanOk_high_2 : solverOk (runSamples (scanCfg 10) scanAerosol 2) = true := by
  with_unfolding_all decide

lemma scanRun_ok_low :
    ParcelModel.run (scanCfg (1/10)) scanAerosol = .ok (scanTraj (1/10)) :=
  scanRun_ok_of (1/10) scanOk_low_1 scanOk_low_2

lemma scanRun_ok_high :
    ParcelModel.run (scanCfg 10) scanAerosol = .ok (scanTraj 10) :=
  scanRun_ok_of 10 scanOk_high_1 scanOk_high_2

set_option maxRecDepth 4000 in
set_option maxHeartbeats 2000000 in
lemma scanSmax_low_mid : smaxOfTraj (scanTraj (1/10)) < smaxOfTraj (scanTraj 1) := by
  with_unfolding_all decide

set_option maxRecDepth 4000 in
set_option maxHeartbeats 2000000 in
lemma scanSmax_mid_high : smaxOfTraj (scanTraj 1) < smaxOfTraj (scanTraj 10) := by
  with_unfolding_all decide

set_option maxRecDepth 4000 in
set_option maxHeartbeats 2000000 in
lemma scanFrac_low_mid : scanActFrac (1/10) ≤ scanActFrac 1 := by
  with_unfolding_all decide

set_option maxRecDepth 4000 in
set_option maxHeartbeats 2000000 in
lemma scanFrac_mid_high : scanActFrac 1 ≤ scanActFrac 10 := by
  with_unfolding_all decide

/-- Claim C9: for the fixed scan-scenario aerosol population and initial
thermodynamic state, the runs at updraft speeds 0.1, 1 and 10 m/s all
succeed, their peak supersaturations are strictly increasing in the
updraft speed, and their diagnosed activated fractions are non-decreasing
in the updraft speed. -/
theorem C9_updraft_scan_monotone :
    ParcelModel.run (scanCfg (1/10)) scanAerosol = .ok (scanTraj (1/10)) ∧
    ParcelModel.run (scanCfg 1) scanAerosol = .ok (scanTraj 1) ∧
    ParcelModel.run (scanCfg 10) scanAerosol = .ok (scanTraj 10) ∧
    smaxOfTraj (scanTraj (1/10)) < smaxOfTraj (scanTraj 1) ∧
    smaxOfTraj (scanTraj 1) < smaxOfTraj (scanTraj 10) ∧
    scanActFrac (1/10) ≤ scanActFrac 1 ∧
    scanActFrac 1 ≤ scanActFrac 10 :=
  ⟨scanRun_ok_low, scanRun_ok_mid, scanRun_ok_high,
    scanSmax_low_mid, scanSmax_mid_high, scanFrac_low_mid, scanFrac_mid_high⟩

/-! ## Droplet growth law at the dry limit (claim C4) -/

set_option maxHeartbeats 1000000 in
lemma cG_pos : 0 < growthG 286 91200 (1/10) := by with_unfolding_all decide

set_option maxHeartbeats 1000000 in
lemma cf_at_rd : drdt 286 91200 (-9/10) (1/10) (1/2) 1 1 = 0 := by
  with_unfolding_all decide

lemma cA_pos : 0 < kelvinA 286 := by norm_num [kelvinA, aCoeffC]

/-- Just above the dry radius of a strongly subsaturated particle, the
returned (unclamped there) growth rate stays below a fixed negative
bound, while the clamped value at the dry radius itself is zero. -/
lemma cf_bound (q : ℚ) (hq0 : 0 < q) (hq1 : q ≤ 1) :
    drdt 286 91200 (-9/10) (1/10) (1/2) 1 (1 + q) ≤
      -(1 / (5 * growthG 286 91200 (1/10))) := by
  set G := growthG 286 91200 (1/10) with hGdef
  have hG : 0 < G := cG_pos
  set x : ℚ := 1 + q with hxdef
  have hx1 : (1:ℚ) < x := by rw [hxdef]; linarith
  have hx2 : x ≤ 2 := by rw [hxdef]; linarith
  have hxpos : (0:ℚ) < x := by linarith
  have hx3 : (1:ℚ) ≤ x ^ 3 := by
    have := pow_le_pow_left (by norm_num : (0:ℚ) ≤ 1) hx1.le 3
    simpa using this
  have hnum : -9/10 - seqKohler 286 (1/2) 1 x ≤ -2/5 := by
    unfold seqKohler
    have hA := cA_pos
    have h1 : 0 < kelvinA 286 / x := div_pos hA hxpos
    have h2 : (1:ℚ)/2 * 1 ^ 3 / x ^ 3 ≤ 1/2 := by
      rw [one_pow, mul_one]
      calc (1:ℚ)/2 / x ^ 3 ≤ 1/2 / 1 :=
            div_le_div_of_nonneg_left (by norm_num) (by norm_num) hx3
        _ = 1/2 := by norm_num
    linarith
  have hGx : 0 < G * x := mul_pos hG hxpos
  have h2G : (0:ℚ) < 2 * G := by linarith
  have hraw : drdtRaw 286 91200 (-9/10) (1/10) (1/2) 1 x ≤ -(1 / (5 * G)) := by
    unfold drdtRaw
    rw [← hGdef]
    have key : -(1 / (5 * G)) = (-2/5) / (2 * G) := by
      field_simp
      ring
    calc (-9/10 - seqKohler 286 (1/2) 1 x) / (G * x)
        ≤ (-2/5) / (G * x) := by
          rw [div_le_div_iff hGx hGx]
          exact mul_le_mul_of_nonneg_right hnum hGx.le
      _ ≤ (-2/5) / (2 * G) := by
          rw [div_le_div_iff hGx h2G]
          nlinarith
      _ = -(1 / (5 * G)) := key.symm
  have hne : ¬(x ≤ 1 ∧ drdtRaw 286 91200 (-9/10) (1/10) (1/2) 1 x < 0) :=
    fun hcon => absurd hcon.1 (not_le.mpr hx1)
  unfold drdt
  rw [if_neg hne]
  exact hraw

/-- Counterexample to claim C4 as stated: the growth rate returned by the
growth law, with its exact-zero saturation at and below the dry radius, is
not continuous in the wet radius at the dry radius for a strongly
subsaturated ambient state; the clamp forces a jump from a strictly
negative rate just above the dry radius to exactly zero at it. -/
theorem C4_counterexample :
    ¬ ContinuousAt (fun r => drdt 286 91200 (-9/10) (1/10) (1/2) 1 r) 1 := by
  intro hcont
  set G := growthG 286 91200 (1/10) with hGdef
  have hG : 0 < G := cG_pos
  have hGR : (0:ℝ) < 1 / (5 * (G:ℝ)) := by
    have : (0:ℝ) < (G:ℝ) := by exact_mod_cast hG
    positivity
  rw [Metric.continuousAt_iff] at hcont
  obtain ⟨δ, hδpos, hc⟩ := hcont (1 / (5 * (G:ℝ))) hGR
  obtain ⟨q, hq1, hq2⟩ := exists_rat_btwn (show (0:ℝ) < min δ 1 by positivity)
  have hq0 : 0 < q := by exact_mod_cast hq1
  have hqδ : (q:ℝ) < δ := lt_of_lt_of_le hq2 (min_le_left _ _)
  have hq11 : q ≤ 1 := by
    have h : (q:ℝ) ≤ 1 := le_of_lt (lt_of_lt_of_le hq2 (min_le_right _ _))
    exact_mod_cast h
  have hdist : dist ((1 + q : ℚ)) (1 : ℚ) < δ := by
    rw [Rat.dist_eq]
    push_cast
    rw [show (1:ℝ) + (q:ℝ) - 1 = (q:ℝ) by ring, abs_of_pos (by exact_mod_cast hq0)]
    exact hqδ
  have hlt := hc hdist
  rw [Rat.dist_eq, cf_at_rd] at hlt
  have hb := cf_bound q hq0 hq11
  rw [← hGdef] at hb
  have hbR : (drdt 286 91200 (-9/10) (1/10) (1/2) 1 (1 + q) : ℝ) ≤ -(1 / (5 * (G:ℝ))) := by
    exact_mod_cast hb
  have habs : (1:ℝ) / (5 * (G:ℝ)) ≤
      |(drdt 286 91200 (-9/10) (1/10) (1/2) 1 (1 + q) : ℝ) - ((0:ℚ):ℝ)| := by
    rw [Rat.cast_zero, sub_zero]
    rw [abs_of_nonpos (by linarith)]
    linarith
  linarith

/-- Claim C4 as amended: the unclamped droplet growth law is continuous in
the wet radius at the dry radius (no division by zero at the dry limit);
the returned rate is saturated to exactly zero whenever a particle would
evaporate at or below its dry radius and is never negative there (never
negatively divergent), although that exact-zero clamp itself can jump at
the dry radius; and for a fixed positive wet radius the rate stays finite
(continuous in the dry radius) as a bin's dry radius tends to 0. -/
theorem C4_growth_law_boundary (T P S ac kap rd : ℚ) (hrd : 0 < rd)
    (hG : 0 < growthG T P ac) :
    ContinuousAt (fun r => drdtRaw T P S ac kap rd r) rd ∧
    (∀ r, r ≤ rd → drdtRaw T P S ac kap rd r < 0 → drdt T P S ac kap rd r = 0) ∧
    (∀ r, r ≤ rd → 0 ≤ drdt T P S ac kap rd r) ∧
    (∀ r, 0 < r → Continuous fun rdv => drdtRaw T P S ac kap rdv r) := by
  refine ⟨?_, ?_, ?_, ?_⟩
  · simp only [drdtRaw, seqKohler]
    have h1 : ContinuousAt (fun r : ℚ => kelvinA T / r) rd :=
      continuousAt_const.div continuousAt_id hrd.ne'
    have h2 : ContinuousAt (fun r : ℚ => kap * rd ^ 3 / r ^ 3) rd :=
      continuousAt_const.div (continuousAt_id.pow 3) (pow_ne_zero 3 hrd.ne')
    have h3 : ContinuousAt (fun r : ℚ => growthG T P ac * r) rd :=
      continuousAt_const.mul continuousAt_id
    exact (continuousAt_const.sub (h1.sub h2)).div h3 (mul_ne_zero hG.ne' hrd.ne')
  · intro r h1 h2
    unfold drdt
    rw [if_pos ⟨h1, h2⟩]
  · intro r h1
    unfold drdt
    split_ifs with h
    · exact le_refl 0
    · rcases not_and_or.mp h with h' | h'
      · exact absurd h1 h'
      · exact le_of_not_lt h'
  · intro r hr
    simp only [drdtRaw, seqKohler]
    exact ((continuous_const.sub ((continuous_const.div_const _).sub
      ((continuous_const.mul (continuous_pow 3)).div_const _))).div_const _)

/-- Witness for the amended C4 at the concrete scan-scenario
thermodynamic state and smallest scan bin. -/
theorem C4_witness :
    (0:ℚ) < 1/100000 ∧ 0 < growthG 286 91200 (1/10) ∧
    (ContinuousAt (fun r => drdtRaw 286 91200 (-1/50) (1/10) (27/50) (1/100000) r)
        (1/100000) ∧
      (∀ r, r ≤ 1/100000 → drdtRaw 286 91200 (-1/50) (1/10) (27/50) (1/100000) r < 0 →
        drdt 286 91200 (-1/50) (1/10) (27/50) (1/100000) r = 0) ∧
      (∀ r, r ≤ 1/100000 → 0 ≤ drdt 286 91200 (-1/50) (1/10) (27/50) (1/100000) r) ∧
      (∀ r, 0 < r →
        Continuous fun rdv => drdtRaw 286 91200 (-1/50) (1/10) (27/50) rdv r)) :=
  ⟨by norm_num, cG_pos,
    C4_growth_law_boundary 286 91200 (-1/50) (1/10) (27/50) (1/100000)
      (by norm_num) cG_pos⟩
